import Mathlib

/-!
Shallow embedding of the vssue Gitea V1 adapter and its PKCE code-verifier
helper, together with theorems settling the specification claims.

JavaScript peculiarities are modelled explicitly:
converting an out-of-bounds string index yields `undefined`, and JS string
concatenation `s += undefined` appends the text "undefined"; string / number
truthiness is modelled by dedicated `jsTruthy` functions.
-/

set_option maxRecDepth 100000

namespace Vssue

/-! ## PKCE code verifier (source file `part_000`) -/

/-- The 66-character PKCE unreserved alphabet used by `generateCodeVerifier`. -/
def validChars : String :=
  "ABCDEFGHIJKLMNOPQRSTUVWXYZabcdefghijklmnopqrstuvwxyz0123456789-._~"

/-- `validChars` as a list of characters. -/
def validCharsList : List Char := validChars.toList

/-- The clamping of the requested length: `if (len < 43) len = 43; if (len > 128) len = 128`. -/
def clampLen (length : Nat) : Nat :=
  if length < 43 then 43 else if length > 128 then 128 else length

/-- JS string indexing `s[k]`: `some` character when in bounds, otherwise `undefined` (`none`). -/
def jsIndex (s : List Char) (k : Nat) : Option Char := s.get? k

/-- The characters appended by `codeVerifier += s[k]`: the single character when
the index was in bounds, the text "undefined" otherwise (JS coerces `undefined`). -/
def jsStrOfIndex : Option Char → List Char
  | some c => [c]
  | none => "undefined".toList

/-- The loop body of `generateCodeVerifier`, for a given array of random bytes
(`window.crypto.getRandomValues(new Uint8Array(len))` yields `clampLen length`
bytes, each < 256). -/
def generateCodeVerifier (length : Nat) (randomArr : List Nat) : List Char :=
  randomArr.foldl
    (fun codeVerifier i => codeVerifier ++ jsStrOfIndex (jsIndex validCharsList (i % clampLen length)))
    []

/-- The full `generateCodeVerifier`, including the `typeof window === 'undefined'`
guard that returns `null`. -/
def generateCodeVerifierTop (windowDefined : Bool) (length : Nat) (randomArr : List Nat) :
    Option (List Char) :=
  if windowDefined then some (generateCodeVerifier length randomArr) else none

/-- Folding string concatenation over a list is the join of the mapped pieces. -/
theorem foldl_append_eq (f : Nat → List Char) (arr : List Nat) (acc : List Char) :
    arr.foldl (fun s i => s ++ f i) acc = acc ++ (arr.map f).flatten := by
  induction arr generalizing acc with
  | nil => simp
  | cons h t ih => simp [ih, List.append_assoc]

/-- Every character appended for one random byte lies in the valid alphabet:
in-bounds indices pick from the alphabet, and the characters of the coerced
text "undefined" happen to be lowercase letters of the alphabet. -/
theorem jsStrOfIndex_subset (k : Nat) :
    ∀ c ∈ jsStrOfIndex (jsIndex validCharsList k), c ∈ validCharsList := by
  intro c hc
  cases hg : jsIndex validCharsList k with
  | some ch =>
    rw [hg] at hc
    simp only [jsStrOfIndex, List.mem_singleton] at hc
    subst hc
    exact List.get?_mem hg
  | none =>
    rw [hg] at hc
    revert c
    decide

/-- Every character of a generated code verifier lies in the valid alphabet,
for every requested length and every sequence of random bytes. -/
theorem generateCodeVerifier_chars_valid (length : Nat) (randomArr : List Nat) :
    ∀ c ∈ generateCodeVerifier length randomArr, c ∈ validCharsList := by
  intro c hc
  rw [generateCodeVerifier, foldl_append_eq, List.nil_append, List.mem_flatten] at hc
  obtain ⟨l, hl, hcl⟩ := hc
  rw [List.mem_map] at hl
  obtain ⟨i, _, rfl⟩ := hl
  exact jsStrOfIndex_subset _ c hcl

/-- The number of characters contributed by one random byte: 1 when the index
`i % clampLen length` is in bounds, 9 (the length of "undefined") otherwise. -/
theorem jsStrOfIndex_length (k : Nat) :
    (jsStrOfIndex (jsIndex validCharsList k)).length =
      if validCharsList.length ≤ k then 9 else 1 := by
  by_cases h : validCharsList.length ≤ k
  · have hg : jsIndex validCharsList k = none := by
      simp [jsIndex, List.get?_eq_none, h]
    simp [hg, jsStrOfIndex, h]
  · have hk : k < validCharsList.length := Nat.lt_of_not_le h
    have hg : jsIndex validCharsList k = some (validCharsList.get ⟨k, hk⟩) :=
      List.get?_eq_get hk
    simp [hg, jsStrOfIndex, h]

/-- Length of the join of the mapped pieces, counting out-of-bounds bytes. -/
theorem gcv_length_aux (l : Nat) (arr : List Nat) :
    ((arr.map (fun i => jsStrOfIndex (jsIndex validCharsList (i % l)))).flatten).length =
      arr.length + 8 * arr.countP (fun i => decide (validCharsList.length ≤ i % l)) := by
  induction arr with
  | nil => rfl
  | cons h t ih =>
    rw [List.map_cons, List.flatten_cons, List.length_append, ih, List.countP_cons,
      List.length_cons, jsStrOfIndex_length]
    by_cases hb : validCharsList.length ≤ h % l
    · simp only [hb]
      simp
      omega
    · simp only [hb]
      simp
      omega

/-- The exact length of a generated verifier: one character per in-bounds byte,
nine per out-of-bounds byte. -/
theorem generateCodeVerifier_length (length : Nat) (randomArr : List Nat) :
    (generateCodeVerifier length randomArr).length =
      randomArr.length +
        8 * randomArr.countP (fun i => decide (validCharsList.length ≤ i % clampLen length)) := by
  rw [generateCodeVerifier, foldl_append_eq, List.nil_append]
  exact gcv_length_aux (clampLen length) randomArr

/-- A concrete byte array of the size `window.crypto` fills for length 128. -/
def bytes0 : List Nat := 100 :: List.replicate 127 0

/-- C1: the code computes the selection index as `i % len` with `len` the clamped
requested length (up to 128) instead of `i % validChars.length`; at length 128 the
valid random byte 100 produces index 100, which is out of bounds of the
66-character alphabet, so `validChars[100]` is `undefined` and the loop appends
the text "undefined" instead of one alphabet character. -/
theorem generateCodeVerifier_index_out_of_bounds :
    (100 : Nat) < 256 ∧ clampLen 128 = 128 ∧ validCharsList.length = 66 ∧
      validCharsList.length ≤ 100 % clampLen 128 ∧
      jsIndex validCharsList (100 % clampLen 128) = none ∧
      jsStrOfIndex (jsIndex validCharsList (100 % clampLen 128)) = "undefined".toList := by
  refine ⟨by decide, rfl, by decide, by decide, by decide, by decide⟩

/-- C4: at requested length 128 with the well-formed random byte array `bytes0`
(128 bytes, each < 256), the returned string has 136 characters, not the claimed
`min(max(128, 43), 128) = 128`: the out-of-bounds byte 100 contributes the
9-character text "undefined". The `window === undefined` case does return `null`. -/
theorem generateCodeVerifier_length_bug :
    bytes0.length = clampLen 128 ∧ bytes0.all (fun b => decide (b < 256)) = true ∧
      (generateCodeVerifierTop true 128 bytes0).map List.length = some 136 ∧
      Nat.min (Nat.max 128 43) 128 = 128 ∧ (136 : Nat) ≠ 128 ∧
      generateCodeVerifierTop false 128 bytes0 = none := by
  refine ⟨by decide, by decide, ?_, by decide, by decide, rfl⟩
  decide

/-! ## Data model of the Gitea V1 adapter (`index.ts`, `utils.ts`)

The HTTP transport (axios), the URL helpers (`concatURL`, `buildURL`,
`getCleanURL`, `buildQuery`) and the browser APIs are external collaborators;
they are modelled as explicit oracle arguments.  Each operation is a pure
function of the adapter instance, its arguments and the transport responses,
returning the (possibly unchanged) instance, the settled outcome and the
request it issued. -/

/-- JS truthiness of an optional string (`undefined` and the empty string are falsy). -/
def jsTruthyStr : Option String → Bool
  | none => false
  | some s => !s.isEmpty

/-- Rendering of an optional string inside a template literal (`null` renders as "null"). -/
def jsTemplate : Option String → String
  | none => "null"
  | some s => s

/-- The `proxy` option: either a fixed URL string or a URL-rewriting function. -/
inductive ProxyConf where
  | str (s : String)
  | func (f : String → String)

/-- The fields of a `GiteaV1` instance; `httpBaseURL` stands for the
configuration of the `$http` axios instance created in the constructor. -/
structure Adapter where
  baseURL : String
  owner : String
  repo : String
  labels : List String
  clientId : String
  clientSecret : String
  state : String
  proxy : ProxyConf
  httpBaseURL : String

/-- An HTTP error raised by the transport, as inspected by the adapter
(`e.response && e.response.status`).  `message` gives errors an identity so
that pass-through is observable. -/
structure ErrorResponse where
  status : Nat
  deriving DecidableEq, Repr

/-- An error raised by the transport. -/
structure HttpError where
  message : String
  response : Option ErrorResponse
  deriving DecidableEq, Repr

/-- An error escaping an adapter operation: a transport error, or a JS
TypeError from reading a property of `undefined`. -/
inductive JsError where
  | http (e : HttpError)
  | typeError
  deriving DecidableEq, Repr

/-- The check `e.response && e.response.status === 404` of `getIssue`. -/
def is404 (e : HttpError) : Bool :=
  match e.response with
  | some r => r.status == 404
  | none => false

/-- An HTTP request issued by the adapter (`none` parameter values model
`undefined`, which axios omits). -/
structure Request where
  method : String
  url : String
  params : List (String × Option String)
  authHeader : Option String
  deriving Repr

/-- The result of one adapter operation: the instance afterwards, the settled
outcome, and the requests issued against the issue-tracker endpoint. -/
structure OpResult (α : Type) where
  final : Adapter
  outcome : Except JsError α
  requests : List Request

/-- Raw JSON user shape from the Gitea API. -/
structure RawUser where
  login : String
  avatar_url : String
  deriving DecidableEq, Repr

/-- Raw JSON issue shape from the Gitea API. -/
structure RawIssue where
  number : Nat
  title : String
  body : String
  deriving DecidableEq, Repr

/-- Raw JSON comment shape from the Gitea API; `body_html` is the field the
adapter itself writes during enrichment (absent in the raw response), and
`reactions` is an opaque payload the adapter merely copies. -/
structure RawComment where
  id : Nat
  body : String
  body_html : Option String
  user : RawUser
  created_at : String
  updated_at : String
  reactions : Option String
  deriving DecidableEq, Repr

/-- Canonical `VssueAPI.User` shape. -/
structure User where
  username : String
  avatar : String
  homepage : String
  deriving DecidableEq, Repr

/-- Canonical `VssueAPI.Issue` shape. -/
structure Issue where
  id : Nat
  title : String
  content : String
  link : String
  deriving DecidableEq, Repr

/-- Canonical `VssueAPI.Comment` shape. -/
structure Comment where
  id : Nat
  content : String
  contentRaw : String
  author : User
  createdAt : String
  updatedAt : String
  reactions : Option String
  deriving DecidableEq, Repr

/-- Canonical `VssueAPI.Comments` shape. -/
structure Comments where
  count : Nat
  page : Nat
  perPage : Nat
  data : List Comment
  deriving DecidableEq, Repr

/-- `normalizeUser` of `utils.ts`; `cat` is the external `concatURL`. -/
def normalizeUser (user : RawUser) (baseURL : String) (cat : String → String → String) : User :=
  { username := user.login
    avatar := user.avatar_url
    homepage := cat baseURL user.login }

/-- `normalizeIssue` of `utils.ts`. -/
def normalizeIssue (issue : RawIssue) (baseURL : String) (owner : String) (repo : String)
    (cat : String → String → String) : Issue :=
  { id := issue.number
    title := issue.title
    content := issue.body
    link := cat baseURL (owner ++ "/" ++ repo ++ "/issues/" ++ toString issue.number) }

/-- `normalizeComment` of `utils.ts`: note that `content` is `comment.body`,
the raw markdown, not `comment.body_html`. -/
def normalizeComment (comment : RawComment) (baseURL : String)
    (cat : String → String → String) : Comment :=
  { id := comment.id
    content := comment.body
    contentRaw := comment.body
    author := normalizeUser comment.user baseURL cat
    createdAt := comment.created_at
    updatedAt := comment.updated_at
    reactions := comment.reactions }

/-! ## Adapter operations -/

/-- The private `apiURL` helper: a function proxy rewrites the full API URL,
a string proxy leaves the relative `url` untouched. -/
def Adapter.apiURL (a : Adapter) (cat : String → String → String) (url : String) : String :=
  match a.proxy with
  | .func f => f (cat a.baseURL ("api/v1/" ++ url))
  | .str _ => url

/-- The conditional Authorization header: set only for a truthy access token. -/
def authHeaderOf (accessToken : Option String) : Option String :=
  if jsTruthyStr accessToken then some ("bearer " ++ jsTemplate accessToken) else none

/-- An issue or comment id argument (`string | number`). -/
inductive IssueId where
  | str (s : String)
  | num (n : Nat)
  deriving DecidableEq, Repr

/-- JS truthiness of an optional id (`undefined`, `""` and `0` are falsy). -/
def jsTruthyId : Option IssueId → Bool
  | none => false
  | some (.str s) => !s.isEmpty
  | some (.num n) => n != 0

/-- Rendering of an id inside a URL template literal. -/
def IssueId.render : IssueId → String
  | .str s => s
  | .num n => toString n

/-- The token-endpoint response body; `access_token` may be absent. -/
structure TokenData where
  access_token : Option String
  deriving DecidableEq, Repr

/-- `getAccessToken`: posts the form-encoded code exchange to the proxy URL and
returns `data.access_token`. -/
def getAccessToken (a : Adapter) (cat : String → String → String) (windowHref : String)
    (code : String) (resp : Except HttpError TokenData) : OpResult (Option String) :=
  let originalURL := cat a.baseURL "login/oauth/access_token"
  let proxyURL :=
    match a.proxy with
    | .func f => f originalURL
    | .str s => s
  let req : Request :=
    { method := "POST"
      url := proxyURL
      params := [("client_id", some a.clientId), ("client_secret", some a.clientSecret),
                 ("code", some code), ("grant_type", some "authorization_code"),
                 ("redirect_uri", some windowHref)]
      authHeader := none }
  match resp with
  | .ok d => { final := a, outcome := .ok d.access_token, requests := [req] }
  | .error e => { final := a, outcome := .error (.http e), requests := [req] }

/-- The page query as parsed from `window.location.search`: the `code` and
`state` entries and the remaining entries. -/
structure PageQuery where
  code : Option String
  state : Option String
  rest : List (String × String)

/-- The result of `handleAuth`: the settled outcome and the URL passed to
`window.history.replaceState`, when any. -/
structure AuthResult where
  final : Adapter
  outcome : Except JsError (Option String)
  replacedURL : Option String
  requests : List Request

/-- `handleAuth`: on a truthy `code` with matching `state`, delete `code` and
`state` from the query, replace the browser URL with the rebuilt one, and
exchange the code; otherwise resolve to `null`.  `bu` and `gc` are the external
`buildURL` and `getCleanURL`. -/
def handleAuth (a : Adapter) (query : PageQuery) (href hash : String)
    (bu : String → List (String × String) → String) (gc : String → String)
    (cat : String → String → String) (tokenResp : Except HttpError TokenData) : AuthResult :=
  if jsTruthyStr query.code then
    if query.state ≠ some a.state then
      { final := a, outcome := .ok none, replacedURL := none, requests := [] }
    else
      let code := jsTemplate query.code
      let replaceURL := bu (gc href) query.rest ++ hash
      let r := getAccessToken a cat href code tokenResp
      { final := r.final, outcome := r.outcome, replacedURL := some replaceURL,
        requests := r.requests }
  else
    { final := a, outcome := .ok none, replacedURL := none, requests := [] }

/-- `getUser`: GET `user` with an unconditional bearer header, normalize. -/
def getUser (a : Adapter) (cat : String → String → String) (accessToken : Option String)
    (resp : Except HttpError RawUser) : OpResult User :=
  let req : Request :=
    { method := "GET"
      url := a.apiURL cat "user"
      params := []
      authHeader := some ("bearer " ++ jsTemplate accessToken) }
  match resp with
  | .ok data => { final := a, outcome := .ok (normalizeUser data a.baseURL cat), requests := [req] }
  | .error e => { final := a, outcome := .error (.http e), requests := [req] }

/-- The body of the issue-search response: either an object with `size` and
`values` fields, or a plain JSON array (which has neither). -/
inductive SearchBody where
  | obj (size : Int) (values : List RawIssue)
  | arr (items : List RawIssue)
  deriving DecidableEq, Repr

/-- `getIssue`: with a truthy `issueId`, GET the single issue, converting a
404 error response into `null` and rethrowing any other error; otherwise GET
the issue search endpoint with `labels`, `q` and `timestamp` params and return
the first value when `data.size > 0` (a plain array body has `size` equal to
`undefined`, so it yields `null`; `values[0]` of an empty list is `undefined`
and reading `.number` from it throws a TypeError). -/
def getIssue (a : Adapter) (cat : String → String → String) (accessToken : Option String)
    (issueId : Option IssueId) (issueTitle : Option String) (now : Nat)
    (respById : Except HttpError RawIssue) (respSearch : Except HttpError SearchBody) :
    OpResult (Option Issue) :=
  let auth := authHeaderOf accessToken
  if jsTruthyId issueId then
    let req : Request :=
      { method := "GET"
        url := a.apiURL cat ("repos/" ++ a.owner ++ "/" ++ a.repo ++ "/issues/"
                 ++ ((issueId.map IssueId.render).getD ""))
        params := [("timestamp", some (toString now))]
        authHeader := auth }
    match respById with
    | .ok data =>
      { final := a, outcome := .ok (some (normalizeIssue data a.baseURL a.owner a.repo cat)),
        requests := [req] }
    | .error e =>
      if is404 e then { final := a, outcome := .ok none, requests := [req] }
      else { final := a, outcome := .error (.http e), requests := [req] }
  else
    let req : Request :=
      { method := "GET"
        url := a.apiURL cat ("repos/" ++ a.owner ++ "/" ++ a.repo ++ "/issues")
        params := [("labels", some (String.intercalate "," a.labels)), ("q", issueTitle),
                   ("timestamp", some (toString now))]
        authHeader := auth }
    match respSearch with
    | .ok (.obj size values) =>
      if size > 0 then
        match values with
        | v :: _ =>
          { final := a, outcome := .ok (some (normalizeIssue v a.baseURL a.owner a.repo cat)),
            requests := [req] }
        | [] => { final := a, outcome := .error .typeError, requests := [req] }
      else { final := a, outcome := .ok none, requests := [req] }
    | .ok (.arr _) => { final := a, outcome := .ok none, requests := [req] }
    | .error e => { final := a, outcome := .error (.http e), requests := [req] }

/-- `postIssue`: POST the new issue, normalize the created issue. -/
def postIssue (a : Adapter) (cat : String → String → String) (accessToken : Option String)
    (title content : String) (resp : Except HttpError RawIssue) : OpResult Issue :=
  let req : Request :=
    { method := "POST"
      url := a.apiURL cat ("repos/" ++ a.owner ++ "/" ++ a.repo ++ "/issues")
      params := [("title", some title), ("body", some content),
                 ("labels", some (String.intercalate "," a.labels))]
      authHeader := some ("bearer " ++ jsTemplate accessToken) }
  match resp with
  | .ok data =>
    { final := a, outcome := .ok (normalizeIssue data a.baseURL a.owner a.repo cat),
      requests := [req] }
  | .error e => { final := a, outcome := .error (.http e), requests := [req] }

/-- `getMarkdownContent`: POST the markdown render request and return the body. -/
def getMarkdownContent (a : Adapter) (cat : String → String → String)
    (accessToken : Option String) (contentRaw : String)
    (resp : Except HttpError String) : OpResult String :=
  let req : Request :=
    { method := "POST"
      url := a.apiURL cat "markdown"
      params := [("Context", some (a.owner ++ "/" ++ a.repo)), ("Mode", some "gfm"),
                 ("Text", some contentRaw), ("Wiki", some "false")]
      authHeader := authHeaderOf accessToken }
  match resp with
  | .ok data => { final := a, outcome := .ok data, requests := [req] }
  | .error e => { final := a, outcome := .error (.http e), requests := [req] }

/-- The enrichment of one raw comment inside `getComments`:
`comment.body_html = await this.getMarkdownContent(...)`.  `respRender` gives
the transport response of the markdown endpoint for each rendered text. -/
def enrichComment (a : Adapter) (cat : String → String → String)
    (accessToken : Option String) (respRender : String → Except HttpError String)
    (c : RawComment) : Except JsError RawComment :=
  match (getMarkdownContent a cat accessToken c.body (respRender c.body)).outcome with
  | .ok h => .ok { c with body_html := some h }
  | .error e => .error e

/-- The `Promise.all` fan-out over the fetched comments: the first rejection
rejects the whole batch. -/
def enrichAll (a : Adapter) (cat : String → String → String) (accessToken : Option String)
    (respRender : String → Except HttpError String) :
    List RawComment → Except JsError (List RawComment)
  | [] => .ok []
  | c :: rest =>
    match enrichComment a cat accessToken respRender c with
    | .error e => .error e
    | .ok c2 =>
      match enrichAll a cat accessToken respRender rest with
      | .error e => .error e
      | .ok rest2 => .ok (c2 :: rest2)

/-- The `query` argument of `getComments` (`Partial<VssueAPI.Query>`). -/
structure QueryArgs where
  page : Option Nat
  perPage : Option Nat
  sort : Option String
  deriving DecidableEq, Repr

/-- `getComments`: GET the comments of the issue (only a cache-busting
`timestamp` param), enrich each comment with its rendered markdown via a
fan-out, and return a `Comments` value with hard-coded `count`, `page` and
`perPage` of 0 and the normalized comments. -/
def getComments (a : Adapter) (cat : String → String → String) (accessToken : Option String)
    (issueId : IssueId) (query : QueryArgs)
    (respComments : Except HttpError (List RawComment))
    (respRender : String → Except HttpError String) (now : Nat) : OpResult Comments :=
  let page := query.page.getD 1
  let perPage := query.perPage.getD 10
  let sort := query.sort.getD "desc"
  let req : Request :=
    { method := "GET"
      url := a.apiURL cat ("repos/" ++ a.owner ++ "/" ++ a.repo ++ "/issues/"
               ++ issueId.render ++ "/comments")
      params := [("timestamp", some (toString now))]
      authHeader := authHeaderOf accessToken }
  match respComments with
  | .error e => { final := a, outcome := .error (.http e), requests := [req] }
  | .ok commentsRaw =>
    match enrichAll a cat accessToken respRender commentsRaw with
    | .error e => { final := a, outcome := .error e, requests := [req] }
    | .ok enriched =>
      { final := a
        outcome := .ok
          { count := 0
            page := 0
            perPage := 0
            data := enriched.map (fun item => normalizeComment item a.baseURL cat) }
        requests := [req] }

/-- `postComment`: POST the new comment, fetch its rendered markdown into
`body_html`, normalize. -/
def postComment (a : Adapter) (cat : String → String → String) (accessToken : Option String)
    (issueId : IssueId) (content : String) (resp : Except HttpError RawComment)
    (respRender : String → Except HttpError String) : OpResult Comment :=
  let req : Request :=
    { method := "POST"
      url := a.apiURL cat ("repos/" ++ a.owner ++ "/" ++ a.repo ++ "/issues/"
               ++ issueId.render ++ "/comments")
      params := [("body", some content)]
      authHeader := some ("bearer " ++ jsTemplate accessToken) }
  match resp with
  | .error e => { final := a, outcome := .error (.http e), requests := [req] }
  | .ok data =>
    match (getMarkdownContent a cat accessToken data.body (respRender data.body)).outcome with
    | .error e => { final := a, outcome := .error e, requests := [req] }
    | .ok h =>
      { final := a
        outcome := .ok (normalizeComment { data with body_html := some h } a.baseURL cat)
        requests := [req] }

/-- `putComment`: PATCH the comment, normalize (no markdown fetch here). -/
def putComment (a : Adapter) (cat : String → String → String) (accessToken : Option String)
    (issueId commentId : IssueId) (content : String)
    (resp : Except HttpError RawComment) : OpResult Comment :=
  let req : Request :=
    { method := "PATCH"
      url := a.apiURL cat ("repos/" ++ a.owner ++ "/" ++ a.repo ++ "/issues/"
               ++ issueId.render ++ "/comments/" ++ commentId.render)
      params := [("body", some content)]
      authHeader := some ("bearer " ++ jsTemplate accessToken) }
  match resp with
  | .error e => { final := a, outcome := .error (.http e), requests := [req] }
  | .ok data =>
    { final := a, outcome := .ok (normalizeComment data a.baseURL cat), requests := [req] }

/-- `deleteComment`: DELETE the comment, resolve to `status === 204`. -/
def deleteComment (a : Adapter) (cat : String → String → String) (accessToken : Option String)
    (issueId commentId : IssueId) (resp : Except HttpError Nat) : OpResult Bool :=
  let req : Request :=
    { method := "DELETE"
      url := a.apiURL cat ("repos/" ++ a.owner ++ "/" ++ a.repo ++ "/issues/"
               ++ issueId.render ++ "/comments/" ++ commentId.render)
      params := []
      authHeader := some ("bearer " ++ jsTemplate accessToken) }
  match resp with
  | .ok status => { final := a, outcome := .ok (status == 204), requests := [req] }
  | .error e => { final := a, outcome := .error (.http e), requests := [req] }

/-- The `VssueAPI.Platform` metadata. -/
structure PlatformMeta where
  reactable : Bool
  sortable : Bool
  deriving DecidableEq, Repr

/-- The `VssueAPI.Platform` info returned by the `platform` getter. -/
structure Platform where
  name : String
  link : String
  version : String
  meta : PlatformMeta
  deriving DecidableEq, Repr

/-- The `platform` getter, threaded through the instance like the other operations. -/
def platform (a : Adapter) : Adapter × Platform :=
  (a, { name := "Gitea"
        link := a.baseURL
        version := ""
        meta := { reactable := false, sortable := false } })

/-! ## Concrete fixtures used by the closed theorems -/

/-- A concrete adapter instance. -/
def a0 : Adapter :=
  { baseURL := "https://try.gitea.io"
    owner := "octo"
    repo := "blog"
    labels := ["Vssue"]
    clientId := "cid"
    clientSecret := "sec"
    state := "Vssue"
    proxy := .str "https://proxy.example/cors"
    httpBaseURL := "https://try.gitea.io/api/v1" }

/-- A concrete `concatURL`. -/
def cat0 : String → String → String := fun x y => x ++ "/" ++ y

/-- A concrete `buildURL`. -/
def bu0 : String → List (String × String) → String :=
  fun s q => s ++ "?" ++ String.intercalate "&" (q.map (fun p => p.1 ++ "=" ++ p.2))

/-- A concrete `getCleanURL`. -/
def gc0 : String → String := fun s => s

/-- A transport error carrying a 404 response. -/
def err404 : HttpError :=
  { message := "Request failed with status code 404", response := some { status := 404 } }

/-- A transport error carrying a 500 response. -/
def err500 : HttpError :=
  { message := "Request failed with status code 500", response := some { status := 500 } }

/-- A concrete raw issue. -/
def ri0 : RawIssue := { number := 1, title := "Home", body := "Welcome" }

/-- A concrete raw comment whose body is markdown. -/
def rc0 : RawComment :=
  { id := 7
    body := "**hi**"
    body_html := none
    user := { login := "alice", avatar_url := "https://a.png" }
    created_at := "2020-01-01"
    updated_at := "2020-01-02"
    reactions := none }

/-- A markdown-endpoint oracle that renders every text to a fixed HTML string. -/
def render0 : String → Except HttpError String :=
  fun _ => .ok "<p><strong>hi</strong></p>"

/-- A page query with an empty `code` value and a matching `state`. -/
def q0 : PageQuery := { code := some "", state := some "Vssue", rest := [] }

/-- A page query with a non-empty `code` and a matching `state`. -/
def q1 : PageQuery := { code := some "abc", state := some "Vssue", rest := [("p", "1")] }

/-! ## Claim theorems -/

/-- C6: the three data-normalization functions are pure field mappings: for every
raw input, `normalizeUser` maps login / avatar_url / joined homepage,
`normalizeIssue` maps number / title / body / joined issue link, and
`normalizeComment` maps id / body (as both `content` and `contentRaw`) /
normalized author / created_at / updated_at / reactions. -/
theorem normalize_functions_spec (u : RawUser) (i : RawIssue) (c : RawComment)
    (baseURL owner repo : String) (cat : String → String → String) :
    normalizeUser u baseURL cat =
      { username := u.login, avatar := u.avatar_url, homepage := cat baseURL u.login } ∧
    normalizeIssue i baseURL owner repo cat =
      { id := i.number, title := i.title, content := i.body,
        link := cat baseURL (owner ++ "/" ++ repo ++ "/issues/" ++ toString i.number) } ∧
    normalizeComment c baseURL cat =
      { id := c.id, content := c.body, contentRaw := c.body,
        author := normalizeUser c.user baseURL cat, createdAt := c.created_at,
        updatedAt := c.updated_at, reactions := c.reactions } :=
  ⟨rfl, rfl, rfl⟩

/-- C7: every adapter operation, for every input and every transport outcome,
leaves every field of the instance unchanged (the returned instance is the
initial one). -/
theorem adapter_stateless (a : Adapter) (query : PageQuery) (href hash : String)
    (bu : String → List (String × String) → String) (gc : String → String)
    (cat : String → String → String) (tokenResp : Except HttpError TokenData)
    (code : String) (accessToken : Option String) (respUser : Except HttpError RawUser)
    (issueId : Option IssueId) (issueTitle : Option String) (now : Nat)
    (respById : Except HttpError RawIssue) (respSearch : Except HttpError SearchBody)
    (title content contentRaw : String) (respIssue : Except HttpError RawIssue)
    (cid commentId : IssueId) (q : QueryArgs)
    (respComments : Except HttpError (List RawComment))
    (respRender : String → Except HttpError String)
    (respComment : Except HttpError RawComment) (respStatus : Except HttpError Nat)
    (respMd : Except HttpError String) :
    (handleAuth a query href hash bu gc cat tokenResp).final = a ∧
    (getAccessToken a cat href code tokenResp).final = a ∧
    (getUser a cat accessToken respUser).final = a ∧
    (getIssue a cat accessToken issueId issueTitle now respById respSearch).final = a ∧
    (postIssue a cat accessToken title content respIssue).final = a ∧
    (getComments a cat accessToken cid q respComments respRender now).final = a ∧
    (postComment a cat accessToken cid content respComment respRender).final = a ∧
    (putComment a cat accessToken cid commentId content respComment).final = a ∧
    (deleteComment a cat accessToken cid commentId respStatus).final = a ∧
    (getMarkdownContent a cat accessToken contentRaw respMd).final = a ∧
    (platform a).1 = a := by
  refine ⟨?_, ?_, ?_, ?_, ?_, ?_, ?_, ?_, ?_, ?_, rfl⟩
  · unfold handleAuth
    split
    · split
      · rfl
      · cases tokenResp <;> rfl
    · rfl
  · cases tokenResp <;> rfl
  · cases respUser <;> rfl
  · unfold getIssue
    split
    · cases respById with
      | ok d => rfl
      | error e => by_cases h : is404 e <;> simp [h]
    · cases respSearch with
      | error e => rfl
      | ok b =>
        cases b with
        | arr items => rfl
        | obj size values =>
          by_cases h : size > 0 <;> cases values <;> simp [h]
  · cases respIssue <;> rfl
  · unfold getComments
    cases respComments with
    | error e => rfl
    | ok commentsRaw =>
      cases he : enrichAll a cat accessToken respRender commentsRaw <;> simp [he]
  · unfold postComment
    cases respComment with
    | error e => rfl
    | ok d =>
      cases hm : (getMarkdownContent a cat accessToken d.body (respRender d.body)).outcome <;>
        simp [hm]
  · cases respComment <;> rfl
  · cases respStatus <;> rfl
  · cases respMd <;> rfl

/-- C5 counterexample: a query that does contain a `code` parameter (with the
empty string as value) and whose `state` matches the adapter's configured state,
yet `handleAuth` resolves to `null` and never touches the browser URL, because
the source checks JS truthiness of `query.code` and the empty string is falsy —
while the claim demands the access token ("tok" here) and a URL replacement. -/
theorem handleAuth_empty_code_cex :
    q0.code = some "" ∧ q0.state = some a0.state ∧
    (handleAuth a0 q0 "https://ex.org/page" "" bu0 gc0 cat0
        (.ok { access_token := some "tok" })).outcome = .ok none ∧
    (handleAuth a0 q0 "https://ex.org/page" "" bu0 gc0 cat0
        (.ok { access_token := some "tok" })).replacedURL = none ∧
    ((Except.ok none : Except JsError (Option String)) ≠ .ok (some "tok")) :=
  ⟨rfl, rfl, rfl, rfl, by simp⟩

/-- C5 amended: `handleAuth` resolves to `null` whenever the query's `code`
parameter is absent or empty (JS truthiness), or is non-empty but the `state`
parameter differs from the adapter's configured state; when a non-empty `code`
is present and the `state` matches, it replaces the browser URL with the URL
rebuilt from the query without `code` and `state`, and resolves to the result
of exchanging the code via `getAccessToken`. -/
theorem handleAuth_spec (a : Adapter) (query : PageQuery) (href hash : String)
    (bu : String → List (String × String) → String) (gc : String → String)
    (cat : String → String → String) (tokenResp : Except HttpError TokenData) :
    (jsTruthyStr query.code = false →
      handleAuth a query href hash bu gc cat tokenResp =
        { final := a, outcome := .ok none, replacedURL := none, requests := [] }) ∧
    (jsTruthyStr query.code = true → query.state ≠ some a.state →
      handleAuth a query href hash bu gc cat tokenResp =
        { final := a, outcome := .ok none, replacedURL := none, requests := [] }) ∧
    (∀ c, query.code = some c → c.isEmpty = false → query.state = some a.state →
      (handleAuth a query href hash bu gc cat tokenResp).replacedURL =
        some (bu (gc href) query.rest ++ hash) ∧
      (handleAuth a query href hash bu gc cat tokenResp).outcome =
        (getAccessToken a cat href c tokenResp).outcome) := by
  refine ⟨?_, ?_, ?_⟩
  · intro h
    unfold handleAuth
    simp [h]
  · intro h1 h2
    unfold handleAuth
    simp [h1, h2]
  · intro c hc hne hst
    have ht : jsTruthyStr (some c) = true := by simp [jsTruthyStr, hne]
    unfold handleAuth
    rw [hc]
    simp [ht, hst, jsTemplate]

/-- C5 witness: at a concrete query with non-empty code "abc" and matching
state, `handleAuth` replaces the URL with the rebuilt one and resolves to the
`getAccessToken` outcome. -/
theorem handleAuth_spec_witness :
    (handleAuth a0 q1 "https://ex.org/page" "#c" bu0 gc0 cat0
        (.ok { access_token := some "tok" })).replacedURL =
      some (bu0 (gc0 "https://ex.org/page") q1.rest ++ "#c") ∧
    (handleAuth a0 q1 "https://ex.org/page" "#c" bu0 gc0 cat0
        (.ok { access_token := some "tok" })).outcome =
      (getAccessToken a0 cat0 "https://ex.org/page" "abc"
        (.ok { access_token := some "tok" })).outcome :=
  (handleAuth_spec a0 q1 "https://ex.org/page" "#c" bu0 gc0 cat0
      (.ok { access_token := some "tok" })).2.2 "abc" rfl (by decide) rfl

/-- C3 counterexample: `getIssue` called with an issue id does not propagate a
404 transport error — it converts it into a normally resolved `null`, so the
adapter does have a failure-recovery policy beyond pass-through. -/
theorem getIssue_404_recovery_cex :
    is404 err404 = true ∧
    (getIssue a0 cat0 (some "tok") (some (.num 1)) none 0 (.error err404)
        (.ok (.arr []))).outcome = .ok none ∧
    ((Except.ok none : Except JsError (Option Issue)) ≠ .error (.http err404)) :=
  ⟨rfl, rfl, by simp⟩

/-- C3 amended: every adapter operation propagates a transport error unchanged
to the caller, with the single exception of `getIssue` called with a (truthy)
issue id, which converts an error whose response has status 404 into a resolved
`null` and rethrows every other error. -/
theorem errors_pass_through (a : Adapter) (cat : String → String → String)
    (accessToken : Option String) (e : HttpError)
    (href hash code title content contentRaw : String) (k : Nat)
    (issueTitle : Option String) (now : Nat)
    (respById : Except HttpError RawIssue) (respSearch : Except HttpError SearchBody)
    (query : PageQuery) (bu : String → List (String × String) → String)
    (gc : String → String) (q : QueryArgs) (cid commentId : IssueId)
    (c : RawComment) (cs : List RawComment) (d : RawComment) :
    (jsTruthyStr query.code = true → query.state = some a.state →
      (handleAuth a query href hash bu gc cat (.error e)).outcome = .error (.http e)) ∧
    (getAccessToken a cat href code (.error e)).outcome = .error (.http e) ∧
    (getUser a cat accessToken (.error e)).outcome = .error (.http e) ∧
    ((getIssue a cat accessToken (some (.num (k + 1))) issueTitle now (.error e)
        respSearch).outcome = if is404 e then .ok none else .error (.http e)) ∧
    ((getIssue a cat accessToken none issueTitle now respById (.error e)).outcome
        = .error (.http e)) ∧
    (postIssue a cat accessToken title content (.error e)).outcome = .error (.http e) ∧
    (getComments a cat accessToken cid q (.error e) (fun s => .ok s) now).outcome
        = .error (.http e) ∧
    (getComments a cat accessToken cid q (.ok (c :: cs)) (fun _ => .error e) now).outcome
        = .error (.http e) ∧
    (postComment a cat accessToken cid content (.error e) (fun s => .ok s)).outcome
        = .error (.http e) ∧
    (postComment a cat accessToken cid content (.ok d) (fun _ => .error e)).outcome
        = .error (.http e) ∧
    (putComment a cat accessToken cid commentId content (.error e)).outcome
        = .error (.http e) ∧
    (deleteComment a cat accessToken cid commentId (.error e)).outcome = .error (.http e) ∧
    (getMarkdownContent a cat accessToken contentRaw (.error e)).outcome = .error (.http e) := by
  refine ⟨?_, rfl, rfl, ?_, rfl, rfl, rfl, rfl, rfl, rfl, rfl, rfl, rfl⟩
  · intro h1 h2
    unfold handleAuth
    simp [h1, h2, getAccessToken]
  · by_cases h : is404 e <;> simp [getIssue, jsTruthyId, h]

/-- C3 witness: the pass-through of a concrete 500 error through `handleAuth`
at a concrete query with truthy code and matching state. -/
theorem errors_pass_through_witness :
    (handleAuth a0 q1 "https://ex.org/page" "" bu0 gc0 cat0 (.error err500)).outcome
      = .error (.http err500) :=
  (errors_pass_through a0 cat0 none err500 "https://ex.org/page" "" "abc" "t" "c" "raw" 0
      none 0 (.ok ri0) (.ok (.arr [])) q1 bu0 gc0
      { page := none, perPage := none, sort := none } (.num 1) (.num 2) rc0 [] rc0).1
    (by decide) rfl

/-- C8: `getIssue` called with a (truthy) issue id resolves to the normalized
issue on a successful response; it resolves to `null` exactly when the
transport fails with a response of status 404; every other error (no response,
or another status) is rethrown; and the instance is unchanged in every case. -/
theorem getIssue_by_id_spec (a : Adapter) (cat : String → String → String)
    (accessToken : Option String) (issueId : Option IssueId) (issueTitle : Option String)
    (now : Nat) (respSearch : Except HttpError SearchBody)
    (h : jsTruthyId issueId = true) :
    (∀ data, (getIssue a cat accessToken issueId issueTitle now (.ok data) respSearch).outcome
        = .ok (some (normalizeIssue data a.baseURL a.owner a.repo cat))) ∧
    (∀ e, (getIssue a cat accessToken issueId issueTitle now (.error e) respSearch).outcome
        = if is404 e then .ok none else .error (.http e)) ∧
    (∀ respById, ((getIssue a cat accessToken issueId issueTitle now respById
        respSearch).outcome = .ok none ↔ ∃ e, respById = .error e ∧ is404 e = true)) ∧
    (∀ respById, (getIssue a cat accessToken issueId issueTitle now respById
        respSearch).final = a) := by
  refine ⟨?_, ?_, ?_, ?_⟩
  · intro data
    simp [getIssue, h]
  · intro e
    by_cases h4 : is404 e <;> simp [getIssue, h, h4]
  · intro respById
    cases respById with
    | ok data => simp [getIssue, h]
    | error e => by_cases h4 : is404 e <;> simp [getIssue, h, h4]
  · intro respById
    cases respById with
    | ok data => simp [getIssue, h]
    | error e => by_cases h4 : is404 e <;> simp [getIssue, h, h4]

/-- C8 witness: at a concrete truthy issue id, a 404 error resolves to `null`. -/
theorem getIssue_by_id_spec_witness :
    (getIssue a0 cat0 (some "tok") (some (.num 2)) none 5 (.error err404)
        (.ok (.arr []))).outcome = .ok none := by
  have h := ((getIssue_by_id_spec a0 cat0 (some "tok") (some (.num 2)) none 5
      (.ok (.arr [])) (by decide)).2.1) err404
  simpa [is404, err404] using h

/-- C9: `getIssue` called without an issue id issues one GET to the repository
issues endpoint with params `labels` (the configured labels joined by commas),
`q` (the issue title) and a timestamp; it resolves to a non-null issue only when
the response body has a `size` field greater than 0, in which case it returns
`normalizeIssue` of `values[0]`; a body with `size ≤ 0` and a plain array body
(whose `size` is `undefined`) both resolve to `null`. -/
theorem getIssue_by_title_spec (a : Adapter) (cat : String → String → String)
    (accessToken : Option String) (issueTitle : Option String) (now : Nat)
    (respById : Except HttpError RawIssue) (respSearch : Except HttpError SearchBody) :
    (getIssue a cat accessToken none issueTitle now respById respSearch).requests =
      [{ method := "GET"
         url := a.apiURL cat ("repos/" ++ a.owner ++ "/" ++ a.repo ++ "/issues")
         params := [("labels", some (String.intercalate "," a.labels)), ("q", issueTitle),
                    ("timestamp", some (toString now))]
         authHeader := authHeaderOf accessToken }] ∧
    (∀ items, (getIssue a cat accessToken none issueTitle now respById
        (.ok (.arr items))).outcome = .ok none) ∧
    (∀ size v vs, (getIssue a cat accessToken none issueTitle now respById
        (.ok (.obj size (v :: vs)))).outcome =
          .ok (if 0 < size then some (normalizeIssue v a.baseURL a.owner a.repo cat)
               else none)) ∧
    (∀ size, ¬ 0 < size → (getIssue a cat accessToken none issueTitle now respById
        (.ok (.obj size []))).outcome = .ok none) ∧
    (∀ iss, (getIssue a cat accessToken none issueTitle now respById respSearch).outcome
        = .ok (some iss) → ∃ size values, respSearch = .ok (.obj size values) ∧ 0 < size) := by
  refine ⟨?_, ?_, ?_, ?_, ?_⟩
  · unfold getIssue
    cases respSearch with
    | error e => rfl
    | ok b =>
      cases b with
      | arr items => rfl
      | obj size values => by_cases hs : size > 0 <;> cases values <;> simp [jsTruthyId, hs]
  · intro items
    simp [getIssue, jsTruthyId]
  · intro size v vs
    by_cases hs : 0 < size <;> simp [getIssue, jsTruthyId, hs]
  · intro size hs
    simp [getIssue, jsTruthyId, hs]
  · intro iss hiss
    cases respSearch with
    | error e => simp [getIssue, jsTruthyId] at hiss
    | ok b =>
      cases b with
      | arr items => simp [getIssue, jsTruthyId] at hiss
      | obj size values =>
        by_cases hs : 0 < size
        · exact ⟨size, values, rfl, hs⟩
        · simp [getIssue, jsTruthyId, hs] at hiss

/-- C9 witness: a concrete successful search (an object body with size 1)
resolves to the normalized first value, so the only-when direction is
inhabited. -/
theorem getIssue_by_title_spec_witness :
    ∃ size values,
      (Except.ok (SearchBody.obj 1 [ri0]) : Except HttpError SearchBody)
        = .ok (.obj size values) ∧ 0 < size :=
  (getIssue_by_title_spec a0 cat0 none (some "Home") 7 (.ok ri0)
      (.ok (.obj 1 [ri0]))).2.2.2.2
    (normalizeIssue ri0 a0.baseURL a0.owner a0.repo cat0) (by simp [getIssue, jsTruthyId])

/-- C10: the `query` argument of `getComments` (page, perPage, sort) has no
effect on the request issued or the result returned — two calls differing only
in `query` are identical — and every successfully resolved `Comments` value has
`count = 0`, `page = 0` and `perPage = 0`. -/
theorem getComments_query_ignored (a : Adapter) (cat : String → String → String)
    (accessToken : Option String) (issueId : IssueId) (q q2 : QueryArgs)
    (respComments : Except HttpError (List RawComment))
    (respRender : String → Except HttpError String) (now : Nat) :
    getComments a cat accessToken issueId q respComments respRender now =
      getComments a cat accessToken issueId q2 respComments respRender now ∧
    (∀ r, (getComments a cat accessToken issueId q respComments respRender now).outcome
        = .ok r → r.count = 0 ∧ r.page = 0 ∧ r.perPage = 0) := by
  constructor
  · rfl
  · intro r
    unfold getComments
    cases respComments with
    | error e =>
      intro hr
      simp at hr
    | ok commentsRaw =>
      cases he : enrichAll a cat accessToken respRender commentsRaw with
      | error e =>
        intro hr
        simp [he] at hr
      | ok enriched =>
        intro hr
        simp only [he, Except.ok.injEq] at hr
        subst hr
        exact ⟨rfl, rfl, rfl⟩

/-- C10 witness: a concrete successful `getComments` call resolves with
`count = page = perPage = 0`. -/
theorem getComments_query_ignored_witness :
    ({ count := 0, page := 0, perPage := 0,
       data := [{ id := 7, content := "**hi**", contentRaw := "**hi**",
                  author := { username := "alice", avatar := "https://a.png",
                              homepage := cat0 a0.baseURL "alice" },
                  createdAt := "2020-01-01", updatedAt := "2020-01-02",
                  reactions := none }] } : Comments).count = 0 ∧
    ({ count := 0, page := 0, perPage := 0,
       data := [{ id := 7, content := "**hi**", contentRaw := "**hi**",
                  author := { username := "alice", avatar := "https://a.png",
                              homepage := cat0 a0.baseURL "alice" },
                  createdAt := "2020-01-01", updatedAt := "2020-01-02",
                  reactions := none }] } : Comments).page = 0 ∧
    ({ count := 0, page := 0, perPage := 0,
       data := [{ id := 7, content := "**hi**", contentRaw := "**hi**",
                  author := { username := "alice", avatar := "https://a.png",
                              homepage := cat0 a0.baseURL "alice" },
                  createdAt := "2020-01-01", updatedAt := "2020-01-02",
                  reactions := none }] } : Comments).perPage = 0 :=
  (getComments_query_ignored a0 cat0 none (.num 1)
      { page := some 3, perPage := some 50, sort := some "asc" }
      { page := none, perPage := none, sort := none }
      (.ok [rc0]) render0 9).2 _ rfl

/-- C2: `getComments` does fan out a markdown-render call per fetched comment
and stores the rendered HTML into the raw comment's `body_html`, but the
returned value does not reflect the enrichment: `normalizeComment` reads
`comment.body`, so each returned comment's `content` equals its raw markdown
`contentRaw`, not the rendered HTML produced by `getMarkdownContent`. -/
theorem getComments_content_not_rendered :
    enrichAll a0 cat0 (some "tok") render0 [rc0] =
      .ok [{ rc0 with body_html := some "<p><strong>hi</strong></p>" }] ∧
    ((getComments a0 cat0 (some "tok") (.num 1)
        { page := none, perPage := none, sort := none }
        (.ok [rc0]) render0 5).outcome).map
          (fun r => r.data.map (fun c => (c.content, c.contentRaw))) =
      .ok [("**hi**", "**hi**")] ∧
    ("**hi**" : String) ≠ "<p><strong>hi</strong></p>" :=
  ⟨rfl, rfl, by decide⟩

end Vssue
